import Mathlib

/-!
Verification development for the PS5 dump-runner installer's
connection/scanning/transfer engine.  The Python sources under `src/` are
shallowly embedded: pure helpers become Lean functions, the FTP session is
modelled by explicit state and per-operation result environments, raised
exceptions become `Except` errors, and wall-clock timestamps are abstracted
(`Nat` stand-ins; durations modelled as `0`).
-/

set_option autoImplicit false

namespace PS5DR

/-! ## String helpers shared by the embedded modules -/

/-- Embeds Python `s.rstrip("/")`: drop every trailing `/`. -/
def rstripSlash (s : String) : String :=
  String.mk ((s.toList.reverse.dropWhile (fun c => c = '/')).reverse)

/-- Embeds Python `s.rstrip("/").split("/")[-1]`: the final path segment. -/
def lastSegment (s : String) : String :=
  (((rstripSlash s).splitOn "/").getLastD "")

/-- Embeds Python `s.startswith(pre)`.  (Defined over the character lists so
that it reduces inside the kernel, unlike core `String.isPrefixOf`.) -/
def strStartsWith (s pre : String) : Bool :=
  pre.toList.isPrefixOf s.toList

/-- Embeds Python `needle in hay` on strings (substring containment). -/
def strContains (hay needle : String) : Bool :=
  (List.range (hay.toList.length + 1)).any
    (fun i => needle.toList.isPrefixOf (hay.toList.drop i))

/-- Leading run of ASCII decimal digits, as in the regex group `(\d+)`
anchored at the start of the remainder of the path. -/
def takeDigits : List Char → List Char
  | [] => []
  | c :: cs => if c.isDigit then c :: takeDigits cs else []

/-- Numeric value of a digit string, as Python `int` on the regex group. -/
def digitsToNat (ds : List Char) : Nat :=
  ds.foldl (fun acc c => acc * 10 + (c.toNat - 48)) 0

/-! ## `src/config/paths.py` -/

/-- Embeds `SCAN_PATHS` from `src/config/paths.py` (the list literal with its
two comprehensions expanded). -/
def SCAN_PATHS : List String :=
  [ "/mnt/usb0/homebrew/"
  , "/mnt/usb0/etaHEN/games/"
  , "/mnt/ext0/homebrew/"
  , "/mnt/ext0/etaHEN/games/"
  , "/mnt/ext1/homebrew/"
  , "/mnt/ext1/etaHEN/games/"
  , "/data/homebrew/"
  , "/data/etaHEN/games/"
  , "/mnt/usb1/homebrew/"
  , "/mnt/usb2/homebrew/"
  , "/mnt/usb3/homebrew/"
  , "/mnt/usb4/homebrew/"
  , "/mnt/usb5/homebrew/"
  , "/mnt/usb6/homebrew/"
  , "/mnt/usb7/homebrew/"
  , "/mnt/usb1/etaHEN/games/"
  , "/mnt/usb2/etaHEN/games/"
  , "/mnt/usb3/etaHEN/games/"
  , "/mnt/usb4/etaHEN/games/"
  , "/mnt/usb5/etaHEN/games/"
  , "/mnt/usb6/etaHEN/games/" ]

/-- Embeds `get_location_type_from_path` from `src/config/paths.py`.
`re.match(r"/mnt/usb(\d+)", p)` succeeds exactly when a digit follows the
literal prefix, capturing the maximal digit run; `int` of that run is the
device number.  (`\d` is modelled as ASCII digits.) -/
def get_location_type_from_path (ftp_path : String) : String :=
  if strStartsWith ftp_path "/data/" then "internal"
  else if strStartsWith ftp_path "/mnt/usb" then
    if takeDigits (ftp_path.toList.drop 8) = [] then "usb"
    else if digitsToNat (takeDigits (ftp_path.toList.drop 8)) ≤ 7 then
      "usb" ++ toString (digitsToNat (takeDigits (ftp_path.toList.drop 8)))
    else "usb"
  else if strStartsWith ftp_path "/mnt/ext" then
    if takeDigits (ftp_path.toList.drop 8) = [] then "external"
    else if digitsToNat (takeDigits (ftp_path.toList.drop 8)) ≤ 1 then
      "ext" ++ toString (digitsToNat (takeDigits (ftp_path.toList.drop 8)))
    else "external"
  else "unknown"

/-! ## `src/ftp/connection.py` -/

/-- Embeds the `ConnectionState` enum. -/
inductive ConnectionState where
  | disconnected
  | connecting
  | connected
  | error
  deriving Repr, DecidableEq

/-- Embeds the `FTPConnectionConfig` dataclass (fields only; validation is
`mkFTPConnectionConfig`). -/
structure FTPConnectionConfig where
  host : String
  port : Int
  username : String
  passive_mode : Bool
  timeout : Int
  deriving Repr, DecidableEq

/-- Embeds `FTPConnectionConfig.__post_init__`: construction of a config
raises `ValueError` (here: returns `.error`) iff a validation check fails,
otherwise yields the fully-initialised record. -/
def mkFTPConnectionConfig (host : String) (port : Int) (username : String)
    (passive_mode : Bool) (timeout : Int) : Except String FTPConnectionConfig :=
  if host = "" then .error "Host is required"
  else if ¬(1 ≤ port ∧ port ≤ 65535) then .error "Port must be between 1 and 65535"
  else if ¬(5 ≤ timeout ∧ timeout ≤ 300) then .error "Timeout must be between 5 and 300"
  else .ok ⟨host, port, username, passive_mode, timeout⟩

/-- Observable state of an `FTPConnectionManager` instance.  The underlying
`ftplib.FTP` handle is opaque, so it is modelled as `Option Unit`; timestamps
are abstract `Nat`s. -/
structure ManagerState where
  ftp : Option Unit
  config : Option FTPConnectionConfig
  state : ConnectionState
  connected_at : Option Nat
  last_activity : Option Nat
  error_message : Option String
  deriving Repr, DecidableEq

/-- The field updates `disconnect` always performs after the best-effort
`quit`/`close` sequence. -/
def postDisconnect (s : ManagerState) : ManagerState :=
  { s with ftp := none, state := .disconnected, connected_at := none }

/-- Embeds `FTPConnectionManager.disconnect`.  `quitRes` and `closeRes` are
the outcomes the server would give to `ftp.quit()` / `ftp.close()`; the
Python wraps them in nested `try`/`except` blocks that swallow every
exception, then unconditionally resets the handle and state.  An `.error`
result would model an escaping exception. -/
def disconnect (s : ManagerState) (quitRes closeRes : Except String Unit) :
    Except String ManagerState :=
  match s.ftp with
  | some _ =>
    match quitRes with
    | .ok _ => .ok (postDisconnect s)
    | .error _ =>
      match closeRes with
      | .ok _ => .ok (postDisconnect s)
      | .error _ => .ok (postDisconnect s)
  | none => .ok (postDisconnect s)

/-- Whether an embedded operation raised. -/
def isErr {α : Type} (r : Except String α) : Bool :=
  match r with
  | .error _ => true
  | .ok _ => false

/-! ## `src/ftp/scanner.py` — data model -/

/-- Embeds the `LocationType` enum. -/
inductive LocationType where
  | INTERNAL
  | USB0 | USB1 | USB2 | USB3 | USB4 | USB5 | USB6 | USB7
  | EXT0 | EXT1
  | USB | EXTERNAL | LOCAL | UNKNOWN
  deriving Repr, DecidableEq

/-- Embeds Python `LocationType(value)` lookup by enum value, with the
`!= "unknown"` guard of `GameDump.from_path` folded in (the classifier only
ever produces valid enum values, so unmatched strings map to `UNKNOWN`). -/
def LocationType.ofString (s : String) : LocationType :=
  if s = "internal" then .INTERNAL
  else if s = "usb0" then .USB0
  else if s = "usb1" then .USB1
  else if s = "usb2" then .USB2
  else if s = "usb3" then .USB3
  else if s = "usb4" then .USB4
  else if s = "usb5" then .USB5
  else if s = "usb6" then .USB6
  else if s = "usb7" then .USB7
  else if s = "ext0" then .EXT0
  else if s = "ext1" then .EXT1
  else if s = "usb" then .USB
  else if s = "external" then .EXTERNAL
  else if s = "local" then .LOCAL
  else .UNKNOWN

/-- Embeds the `InstallationStatus` enum. -/
inductive InstallationStatus where
  | NOT_INSTALLED
  | OFFICIAL
  | EXPERIMENTAL
  | UNKNOWN
  deriving Repr, DecidableEq

/-- Embeds the `GameDump` dataclass (the fields the scanning engine reads or
writes; `installed_version`/`installed_at`/`is_experimental` stay at their
defaults throughout scanning and are omitted). -/
structure GameDump where
  path : String
  name : String
  location_type : LocationType
  installation_status : InstallationStatus
  has_elf : Bool
  has_js : Bool
  deriving Repr, DecidableEq

/-- Embeds `GameDump.from_path`. -/
def GameDump.fromPath (full_path : String) : GameDump :=
  { path := full_path
  , name := lastSegment full_path
  , location_type := LocationType.ofString (get_location_type_from_path full_path)
  , installation_status := .NOT_INSTALLED
  , has_elf := false
  , has_js := false }

/-- Embeds `DumpScanner._check_installation_status`.  `files` is the result
of `_list_files_in_dir`, which itself catches every exception and returns a
plain list (empty on failure), so the status check never raises. -/
def check_installation_status (connected : Bool) (dump : GameDump)
    (files : List String) : GameDump :=
  if connected = false then dump
  else
    let he := files.contains "dump_runner.elf"
    let hj := files.contains "homebrew.js"
    let status :=
      if he && hj then InstallationStatus.UNKNOWN
      else if he || hj then InstallationStatus.UNKNOWN
      else InstallationStatus.NOT_INSTALLED
    { dump with has_elf := he, has_js := hj, installation_status := status }

/-! ## FTP session modelling -/

/-- Exceptions the embedded FTP layer distinguishes: `ftplib.error_perm`,
`OSError`, and any other `Exception` (each carrying its `str(e)`). -/
inductive FtpErr where
  | perm (msg : String)
  | os (msg : String)
  | exc (msg : String)
  deriving Repr, DecidableEq

/-- FTP commands issued against the session, recorded as a trace so that
theorems can speak about which round-trips actually happened. -/
inductive FtpOp where
  | noop
  | pwd
  | cwd (path : String)
  | nlst (path : String)
  | dirList (path : String)
  | listFiles (path : String)
  deriving Repr, DecidableEq

/-! ## `DumpScanner._nlst_with_retry` -/

/-- One evaluation of the `for attempt in range(retries + 1)` loop body of
`_nlst_with_retry`, from attempt index `k` with `fuel` further attempts
allowed.  `nlstRes k` / `fbRes k` are the outcomes `ftp.nlst(path)` and
`_list_with_fallback` would produce on attempt `k`; `noopOk k` is the
outcome of the keepalive `NOOP` issued after a transient failure — the
Python wraps that NOOP in `try: ... except Exception: pass`, so its result
is discarded.  Returns the overall result together with the number of NLST
attempts and of keepalive NOOPs issued.  On a permission error the fallback
runs once and its result (or its own failure) is returned: the bare `raise`
in the fallback's `except Exception as list_error` handler re-raises
`list_error`. -/
def nlstRetryGo (nlstRes fbRes : Nat → Except FtpErr (List String))
    (noopOk : Nat → Bool) : Nat → Nat → Except FtpErr (List String) × Nat × Nat
  | k, fuel =>
    match nlstRes k with
    | .ok xs => (.ok xs, 1, 0)
    | .error (.perm _) =>
      (match fbRes k with
       | .ok xs => (.ok xs, 1, 0)
       | .error e => (.error e, 1, 0))
    | .error e =>
      match fuel with
      | 0 => (.error e, 1, 0)
      | fuel' + 1 =>
        let rest := nlstRetryGo nlstRes fbRes noopOk (k + 1) fuel'
        (rest.1, rest.2.1 + 1, rest.2.2 + 1)

/-- Embeds `DumpScanner._nlst_with_retry` (default retry budget 2). -/
def nlst_with_retry (nlstRes fbRes : Nat → Except FtpErr (List String))
    (noopOk : Nat → Bool) (retries : Nat) : Except FtpErr (List String) × Nat × Nat :=
  nlstRetryGo nlstRes fbRes noopOk 0 retries

/-- A listing outcome the retry loop treats as transient (any exception
other than `ftplib.error_perm`). -/
def isTransient (r : Except FtpErr (List String)) : Bool :=
  match r with
  | .error (.os _) => true
  | .error (.exc _) => true
  | _ => false

/-! ## `src/ftp/list_parser.py` (absent from `src/`) -/

/-- System/junk subdirectory names always excluded during traversal (the
tuple in `DumpScanner.scan`, minus `.` and `..` which are listed there
explicitly). -/
def junkNames : List String := ["OffAct", "system", "System"]

/-- Modelled from the spec: `src/ftp/list_parser.py` (`parse_list_output`,
imported by `scanner.py`) is not present under `src/`.  Following spec
§4.3(2): each line is tokenized on whitespace; a line is a directory when
its first token's first character is the directory marker `d`; the name is
re-joined from all tokens after the fixed-width metadata columns (eight
columns, as in `_list_files_in_dir`); entries named `.` and `..` and the
known junk names are excluded. -/
def parse_list_output (output : String) : List String :=
  (output.splitOn "\n").filterMap (fun line =>
    let parts := (line.splitOn " ").filter (fun t => t ≠ "")
    match parts with
    | [] => none
    | p0 :: _ =>
      if strStartsWith p0 "d" ∧ 9 ≤ parts.length then
        let name := String.intercalate " " (parts.drop 8)
        if name = "." ∨ name = ".." ∨ junkNames.contains name then none
        else some name
      else none)

/-! ## `DumpScanner._list_with_fallback` -/

/-- The piece of FTP session state the LIST fallback manipulates: the
current working directory. -/
structure FtpState where
  cwd : String
  deriving Repr, DecidableEq

/-- Environment for one `_list_with_fallback` invocation: whether `pwd()`
raises, whether `cwd(path)` raises, the verbose-listing outcome, and the
outcome of the `k`-th `cwd(current_dir)` restore attempt (`none` = the
command succeeds). -/
structure LfEnv where
  pwdFail : Option String
  cwdInFail : Option String
  dirRes : Except String (List String)
  cwdBackFail : Nat → Option String

/-- Embeds `DumpScanner._list_with_fallback`: save the current directory,
change into `path`, capture `ftp.dir` lines, change back; on any failure in
that `try` block, attempt one best-effort restore (its own failure
swallowed by the bare `except: pass`) and re-raise the original failure
unchanged.  Returns the result, the final session state, and the trace of
FTP commands issued. -/
def list_with_fallback (env : LfEnv) (s : FtpState) (path : String) :
    Except String (List String) × FtpState × List FtpOp :=
  match env.pwdFail with
  | some m => (.error m, s, [.pwd])
  | none =>
    let current := s.cwd
    match env.cwdInFail with
    | some m =>
      -- cwd(path) raised; the except block retries cwd(current) and re-raises
      (.error m,
       (match env.cwdBackFail 0 with
        | none => { cwd := current }
        | some _ => s),
       [.pwd, .cwd path, .cwd current])
    | none =>
      match env.dirRes with
      | .error m =>
        (.error m,
         (match env.cwdBackFail 0 with
          | none => { cwd := current }
          | some _ => { cwd := path }),
         [.pwd, .cwd path, .dirList path, .cwd current])
      | .ok lines =>
        match env.cwdBackFail 0 with
        | some m =>
          -- the in-try restore raised; except block retries and re-raises
          (.error m,
           (match env.cwdBackFail 1 with
            | none => { cwd := current }
            | some _ => { cwd := path }),
           [.pwd, .cwd path, .dirList path, .cwd current, .cwd current])
        | none =>
          let directories := parse_list_output (String.intercalate "\n" lines)
          let full_paths := directories.map (fun dirname =>
            if strStartsWith dirname "/" then dirname
            else rstripSlash path ++ "/" ++ dirname)
          (.ok full_paths, { cwd := current },
           [.pwd, .cwd path, .dirList path, .cwd current])

/-! ## `DumpScanner.scan` -/

/-- Failures `scan` raises before touching any candidate root:
`FTPNotConnectedError` from the `is_connected` guard, and the `OSError`
raised when the initial keepalive NOOP fails. -/
inductive ScanErr where
  | notConnected (op : String)
  | connLost (msg : String)
  deriving Repr, DecidableEq

/-- Whether, after one candidate root was handled, the per-root loop
proceeds (`continue`) or abandons the remaining roots (`break`). -/
inductive ScanStep where
  | next
  | abort
  deriving Repr, DecidableEq

/-- Behaviour the session exhibits for one candidate root: the outcomes of
`pwd()`, the two existence-check `cwd` calls, the `_nlst_with_retry`
listing (modelled by its overall result), and the recovery NOOP consulted
when the root fails with a connection-reset or `150` signature. -/
structure RootEnv where
  pwdRes : Except FtpErr String
  cwdInRes : Except FtpErr Unit
  cwdBackRes : Except FtpErr Unit
  listing : Except FtpErr (List String)
  recoverNoop : Bool

/-- Behaviour the session exhibits for one candidate sub-entry: the result
of the inner `_nlst_with_retry` probe and the `_list_files_in_dir` result
used by the installation-status check (that helper returns `[]` on any
failure, so it is total). -/
structure EntryEnv where
  listing : Except FtpErr (List String)
  files : List String

/-- Embeds the per-entry body of the `scan` loop: skip the root itself and
junk names, build the full path, probe it with the inner listing (success
means "is a directory"), and on success materialise a `GameDump` and run
the status check; every probe failure skips the entry. -/
def processEntry (eenv : String → EntryEnv) (base entry : String) :
    Option GameDump × List FtpOp :=
  if entry = rstripSlash base then (none, [])
  else
    let entry_name := lastSegment entry
    if entry_name = "." ∨ entry_name = ".." ∨ junkNames.contains entry_name then
      (none, [])
    else
      let full_path :=
        if strStartsWith entry "/" then entry else rstripSlash base ++ "/" ++ entry
      match (eenv full_path).listing with
      | .ok _ =>
        (some (check_installation_status true (GameDump.fromPath full_path)
                 (eenv full_path).files),
         [.nlst full_path, .listFiles full_path])
      | .error _ => (none, [.nlst full_path])

/-- Folds `processEntry` over the entries a root's listing returned. -/
def processEntries (eenv : String → EntryEnv) (base : String) :
    List String → List GameDump × List FtpOp
  | [] => ([], [])
  | entry :: rest =>
    let pe := processEntry eenv base entry
    let sub := processEntries eenv base rest
    (pe.1.toList ++ sub.1, pe.2 ++ sub.2)

/-- Embeds the `except OSError` / generic `except Exception` classification
at the bottom of the per-root loop: permission errors skip the root;
an `OSError` mentioning `10053`/`10054`, or another exception mentioning
`150`, triggers a recovery NOOP whose failure aborts the remaining roots;
everything else is logged and skipped. -/
def classifyRootErr (e : FtpErr) (noopOk : Bool) : ScanStep × List FtpOp :=
  match e with
  | .perm _ => (.next, [])
  | .os m =>
    if strContains m "10053" || strContains m "10054" then
      (if noopOk then .next else .abort, [.noop])
    else (.next, [])
  | .exc m =>
    if strContains m "150" then
      (if noopOk then .next else .abort, [.noop])
    else (.next, [])

/-- Embeds one iteration of the `for base_path in SCAN_PATHS` loop:
existence pre-check (`pwd`, `cwd` in, `cwd` back; `error_perm` skips the
root silently, other errors fall through to the classification), then the
root listing, then the per-entry loop. -/
def processRoot (renv : RootEnv) (eenv : String → EntryEnv) (base : String) :
    List GameDump × List FtpOp × ScanStep :=
  match renv.pwdRes with
  | .error (.perm _) => ([], [.pwd], .next)
  | .error e =>
    let cl := classifyRootErr e renv.recoverNoop
    ([], [FtpOp.pwd] ++ cl.2, cl.1)
  | .ok current_dir =>
    match renv.cwdInRes with
    | .error (.perm _) => ([], [.pwd, .cwd base], .next)
    | .error e =>
      let cl := classifyRootErr e renv.recoverNoop
      ([], [FtpOp.pwd, FtpOp.cwd base] ++ cl.2, cl.1)
    | .ok _ =>
      match renv.cwdBackRes with
      | .error (.perm _) => ([], [.pwd, .cwd base, .cwd current_dir], .next)
      | .error e =>
        let cl := classifyRootErr e renv.recoverNoop
        ([], [FtpOp.pwd, FtpOp.cwd base, FtpOp.cwd current_dir] ++ cl.2, cl.1)
      | .ok _ =>
        let pre := [FtpOp.pwd, FtpOp.cwd base, FtpOp.cwd current_dir, FtpOp.nlst base]
        match renv.listing with
        | .error e =>
          let cl := classifyRootErr e renv.recoverNoop
          ([], pre ++ cl.2, cl.1)
        | .ok entries =>
          let pes := processEntries eenv base entries
          (pes.1, pre ++ pes.2, .next)

/-- Folds `processRoot` over the candidate roots, stopping early on
`.abort` (the `break` that abandons the remaining paths). -/
def scanGo (renv : String → RootEnv) (eenv : String → EntryEnv) :
    List String → List GameDump × List FtpOp
  | [] => ([], [])
  | base :: rest =>
    let pr := processRoot (renv base) eenv base
    match pr.2.2 with
    | .abort => (pr.1, pr.2.1)
    | .next =>
      let sub := scanGo renv eenv rest
      (pr.1 ++ sub.1, pr.2.1 ++ sub.2)

/-- Embeds `DumpScanner.scan`.  `connected` is `self._connection.is_connected`;
`noopInit` is the outcome of the keepalive NOOP sent before any candidate
root is touched.  Returns the result (dump list, or the raised failure)
together with the full trace of FTP commands issued. -/
def scan (connected noopInit : Bool) (renv : String → RootEnv)
    (eenv : String → EntryEnv) : Except ScanErr (List GameDump) × List FtpOp :=
  if connected = false then (.error (.notConnected "Scan"), [])
  else if noopInit = false then
    (.error (.connLost "[WinError 10061] Connection lost - FTP server not responding"),
     [.noop])
  else
    let (ds, tr) := scanGo renv eenv SCAN_PATHS
    (.ok ds, FtpOp.noop :: tr)

/-! ## `src/ftp/uploader.py` -/

/-- Embeds the `UploadResult` dataclass.  Wall-clock durations are
abstracted away (`duration_seconds` is always `0.0` in the model and is
omitted). -/
structure UploadResult where
  dump_path : String
  success : Bool
  error_message : Option String := none
  elf_uploaded : Bool := false
  js_uploaded : Bool := false
  bytes_transferred : Nat := 0
  deriving Repr, DecidableEq

/-- Embeds the tail of `upload_to_dump` after both upload steps ran without
an exception: the final cancellation check, then the success result (whose
`elf_uploaded`/`js_uploaded` are the literal `True`s of the source). -/
def uploadFinish (dumpPath : String) (elfUp jsUp : Bool) (total : Nat)
    (c2 : Bool) : UploadResult :=
  if c2 then
    { dump_path := dumpPath, success := false
    , error_message := some "Upload cancelled"
    , elf_uploaded := elfUp, js_uploaded := jsUp, bytes_transferred := total }
  else
    { dump_path := dumpPath, success := true, error_message := none
    , elf_uploaded := true, js_uploaded := true, bytes_transferred := total }

/-- Embeds `FileUploader.upload_to_dump`.  `c0`, `c1`, `c2` are the values
of `self._cancelled.is_set()` at its three checkpoints (before the elf,
before the js, after both); `elfRes`/`jsRes` are the outcomes `_upload_file`
would produce for the two payloads (`.ok` bytes, or `.error` with the
message of the exception it raises).  The second component records which
remote paths a `STOR` transfer was actually attempted for. -/
def upload_to_dump (dumpPath : String) (connected : Bool) (c0 c1 c2 : Bool)
    (elfRes jsRes : Except String Nat) : UploadResult × List String :=
  if connected = false then
    ({ dump_path := dumpPath, success := false
     , error_message := some "Not connected to FTP" }, [])
  else
    if c0 = false then
      match elfRes with
      | .error m =>
        ({ dump_path := dumpPath, success := false, error_message := some m
         , elf_uploaded := false, js_uploaded := false, bytes_transferred := 0 },
         [dumpPath ++ "/dump_runner.elf"])
      | .ok b1 =>
        if c1 = false then
          match jsRes with
          | .error m =>
            ({ dump_path := dumpPath, success := false, error_message := some m
             , elf_uploaded := true, js_uploaded := false, bytes_transferred := b1 },
             [dumpPath ++ "/dump_runner.elf", dumpPath ++ "/homebrew.js"])
          | .ok b2 =>
            (uploadFinish dumpPath true true (b1 + b2) c2,
             [dumpPath ++ "/dump_runner.elf", dumpPath ++ "/homebrew.js"])
        else
          (uploadFinish dumpPath true false b1 c2, [dumpPath ++ "/dump_runner.elf"])
    else
      if c1 = false then
        match jsRes with
        | .error m =>
          ({ dump_path := dumpPath, success := false, error_message := some m
           , elf_uploaded := false, js_uploaded := false, bytes_transferred := 0 },
           [dumpPath ++ "/homebrew.js"])
        | .ok b2 =>
          (uploadFinish dumpPath false true b2 c2, [dumpPath ++ "/homebrew.js"])
      else
        (uploadFinish dumpPath false false 0 c2, [])

/-- One batch target: its dump path and the per-file transfer outcomes the
session would produce for it. -/
structure DumpSpec where
  path : String
  elfRes : Except String Nat
  jsRes : Except String Nat

/-- The result `upload_batch` appends for a dump skipped because the
cancellation flag was already set. -/
def cancelledResult (p : String) : UploadResult :=
  { dump_path := p, success := false, error_message := some "Upload cancelled" }

/-- Embeds the `for dump in dumps` loop of `upload_batch`, threading the
cancellation flag.  `onCompleteCancels r` is whether the flag is set right
after the completion callback for result `r` fires (the caller may call
`cancel()` from that callback, which is the only cancellation source in
this single-threaded model).  Returns the result list, the list of results
the completion callback was invoked with, and the `STOR` attempts made. -/
def uploadBatchGo (connected : Bool) (onCompleteCancels : UploadResult → Bool) :
    List DumpSpec → Bool → List UploadResult × List UploadResult × List String
  | [], _ => ([], [], [])
  | d :: rest, cancelled =>
    if cancelled then
      let sub := uploadBatchGo connected onCompleteCancels rest cancelled
      (cancelledResult d.path :: sub.1, sub.2.1, sub.2.2)
    else
      let ud :=
        upload_to_dump d.path connected cancelled cancelled cancelled d.elfRes d.jsRes
      let sub := uploadBatchGo connected onCompleteCancels rest (onCompleteCancels ud.1)
      (ud.1 :: sub.1, ud.1 :: sub.2.1, ud.2 ++ sub.2.2)

/-- Embeds `FileUploader.upload_batch`: `reset_cancel()` clears the flag,
then the loop runs over the targets. -/
def upload_batch (connected : Bool) (onCompleteCancels : UploadResult → Bool)
    (dumps : List DumpSpec) : List UploadResult × List UploadResult × List String :=
  uploadBatchGo connected onCompleteCancels dumps false

/-! ## Supporting lemmas -/

theorem disconnect_eq (s : ManagerState) (quitRes closeRes : Except String Unit) :
    disconnect s quitRes closeRes = .ok (postDisconnect s) := by
  cases h : s.ftp <;> cases quitRes <;> cases closeRes <;> simp [disconnect, h]

theorem exists_error_iff_isErr {α : Type} (r : Except String α) :
    (∃ e, r = .error e) ↔ isErr r = true := by
  cases r <;> simp [isErr]

/-! ## Claim C6 — path classifier -/

/-- C6: `get_location_type_from_path` is a total, deterministic, pure
function of its input string; slot-indexed tags (`usb0`–`usb7`,
`ext0`/`ext1`) arise only from embedded indices in range; an out-of-range
embedded index yields the generic fallback tag (`usb` resp. `external`);
a path matching no known prefix yields `unknown`. -/
theorem get_location_type_spec (p : String) :
    (∀ q, p = q → get_location_type_from_path p = get_location_type_from_path q)
    ∧ (get_location_type_from_path p = "internal"
       ∨ get_location_type_from_path p = "usb"
       ∨ get_location_type_from_path p = "external"
       ∨ get_location_type_from_path p = "unknown"
       ∨ (∃ n : Nat, n ≤ 7 ∧ get_location_type_from_path p = "usb" ++ toString n)
       ∨ (∃ n : Nat, n ≤ 1 ∧ get_location_type_from_path p = "ext" ++ toString n))
    ∧ (strStartsWith p "/data/" = false → strStartsWith p "/mnt/usb" = true →
        takeDigits (p.toList.drop 8) ≠ [] →
        7 < digitsToNat (takeDigits (p.toList.drop 8)) →
        get_location_type_from_path p = "usb")
    ∧ (strStartsWith p "/data/" = false → strStartsWith p "/mnt/usb" = false →
        strStartsWith p "/mnt/ext" = true →
        takeDigits (p.toList.drop 8) ≠ [] →
        1 < digitsToNat (takeDigits (p.toList.drop 8)) →
        get_location_type_from_path p = "external")
    ∧ (strStartsWith p "/data/" = false → strStartsWith p "/mnt/usb" = false →
        strStartsWith p "/mnt/ext" = false →
        get_location_type_from_path p = "unknown") := by
  refine ⟨fun q hq => by rw [hq], ?_, ?_, ?_, ?_⟩
  · simp only [get_location_type_from_path]
    split_ifs with h1 h2 h3 h4 h5 h6 h7
    · exact Or.inl rfl
    · exact Or.inr (Or.inl rfl)
    · exact Or.inr (Or.inr (Or.inr (Or.inr (Or.inl
        ⟨digitsToNat (takeDigits (p.toList.drop 8)), h4, rfl⟩))))
    · exact Or.inr (Or.inl rfl)
    · exact Or.inr (Or.inr (Or.inl rfl))
    · exact Or.inr (Or.inr (Or.inr (Or.inr (Or.inr
        ⟨digitsToNat (takeDigits (p.toList.drop 8)), h7, rfl⟩))))
    · exact Or.inr (Or.inr (Or.inl rfl))
    · exact Or.inr (Or.inr (Or.inr (Or.inl rfl)))
  · intro h1 h2 hne hgt
    unfold get_location_type_from_path
    rw [if_neg (by simp [h1]), if_pos h2, if_neg hne, if_neg (by omega)]
  · intro h1 h2 h3 hne hgt
    unfold get_location_type_from_path
    rw [if_neg (by simp [h1]), if_neg (by simp [h2]), if_pos h3, if_neg hne,
        if_neg (by omega)]
  · intro h1 h2 h3
    unfold get_location_type_from_path
    rw [if_neg (by simp [h1]), if_neg (by simp [h2]), if_neg (by simp [h3])]

/-- C6 witness: the out-of-range slot index 9 collapses to the generic
`usb` fallback tag on a concrete path. -/
theorem get_location_type_spec_witness :
    get_location_type_from_path "/mnt/usb9/homebrew/" = "usb" :=
  (get_location_type_spec "/mnt/usb9/homebrew/").2.2.1
    (by decide) (by decide) (by decide) (by decide)

/-! ## Claim C7 — connection config validation -/

/-- C7: constructing an `FTPConnectionConfig` fails iff the host is empty,
or the port lies outside `[1, 65535]`, or the timeout lies outside
`[5, 300]`; otherwise it yields exactly the fully-initialised record (no
partial state on failure, by the `Except` shape). -/
theorem config_validation_iff (host : String) (port : Int) (username : String)
    (passive : Bool) (timeout : Int) :
    ((∃ e, mkFTPConnectionConfig host port username passive timeout = .error e) ↔
      (host = "" ∨ port < 1 ∨ 65535 < port ∨ timeout < 5 ∨ 300 < timeout))
    ∧ (¬(host = "" ∨ port < 1 ∨ 65535 < port ∨ timeout < 5 ∨ 300 < timeout) →
        mkFTPConnectionConfig host port username passive timeout
          = .ok ⟨host, port, username, passive, timeout⟩) := by
  by_cases h1 : host = ""
  · refine ⟨?_, fun h => absurd (Or.inl h1) h⟩
    rw [exists_error_iff_isErr]
    unfold mkFTPConnectionConfig
    rw [if_pos h1]
    exact ⟨fun _ => Or.inl h1, fun _ => rfl⟩
  · by_cases h2 : 1 ≤ port ∧ port ≤ 65535
    · by_cases h3 : 5 ≤ timeout ∧ timeout ≤ 300
      · refine ⟨?_, fun _ => ?_⟩
        · rw [exists_error_iff_isErr]
          unfold mkFTPConnectionConfig
          rw [if_neg h1, if_neg (not_not_intro h2), if_neg (not_not_intro h3)]
          refine ⟨fun hfalse => Bool.noConfusion hfalse, fun hr => absurd hr ?_⟩
          push_neg
          exact ⟨h1, by omega, by omega, by omega, by omega⟩
        · unfold mkFTPConnectionConfig
          rw [if_neg h1, if_neg (not_not_intro h2), if_neg (not_not_intro h3)]
      · have ht : timeout < 5 ∨ 300 < timeout := by omega
        refine ⟨?_, fun h => absurd (by tauto) h⟩
        rw [exists_error_iff_isErr]
        unfold mkFTPConnectionConfig
        rw [if_neg h1, if_neg (not_not_intro h2), if_pos h3]
        exact ⟨fun _ => by tauto, fun _ => rfl⟩
    · have hp : port < 1 ∨ 65535 < port := by omega
      refine ⟨?_, fun h => absurd (by tauto) h⟩
      rw [exists_error_iff_isErr]
      unfold mkFTPConnectionConfig
      rw [if_neg h1, if_pos h2]
      exact ⟨fun _ => by tauto, fun _ => rfl⟩

/-- C7 witness: a concrete invalid port is rejected and a concrete valid
configuration is accepted wholesale. -/
theorem config_validation_iff_witness :
    (∃ e, mkFTPConnectionConfig "ps5" 0 "anonymous" true 30 = .error e)
    ∧ mkFTPConnectionConfig "ps5" 1337 "anonymous" true 30
        = .ok ⟨"ps5", 1337, "anonymous", true, 30⟩ :=
  ⟨(config_validation_iff "ps5" 0 "anonymous" true 30).1.mpr
     (Or.inr (Or.inl (by norm_num))),
   (config_validation_iff "ps5" 1337 "anonymous" true 30).2
     (by push_neg; refine ⟨by simp, by norm_num, by norm_num, by norm_num, by norm_num⟩)⟩

/-! ## Claim C8 — disconnect is no-throw, terminal, idempotent -/

/-- C8: `disconnect` never raises (always returns `.ok`), from every prior
state it leaves the session in the disconnected state, and on a session
already in the disconnected shape it is a no-op: the observable state is
returned unchanged. -/
theorem disconnect_noThrow_idempotent :
    (∀ (s : ManagerState) (q c : Except String Unit),
        disconnect s q c = .ok (postDisconnect s)
        ∧ (postDisconnect s).state = .disconnected
        ∧ postDisconnect (postDisconnect s) = postDisconnect s)
    ∧ (∀ (s : ManagerState) (q c : Except String Unit),
        s.state = .disconnected → s.ftp = none → s.connected_at = none →
        disconnect s q c = .ok s) := by
  constructor
  · intro s q c
    exact ⟨disconnect_eq s q c, rfl, rfl⟩
  · intro s q c hs hf hc
    rw [disconnect_eq s q c]
    cases s
    simp_all [postDisconnect]

/-- C8 witness: disconnecting a freshly-created (already-disconnected)
manager is a no-op even when both `quit` and `close` would fail. -/
theorem disconnect_noThrow_idempotent_witness :
    disconnect ⟨none, none, .disconnected, none, none, some "old"⟩
        (.error "quit failed") (.error "close failed")
      = .ok ⟨none, none, .disconnected, none, none, some "old"⟩ :=
  disconnect_noThrow_idempotent.2
    ⟨none, none, .disconnected, none, none, some "old"⟩
    (.error "quit failed") (.error "close failed") rfl rfl rfl

/-! ## Claim C10 — disconnect frame conditions -/

/-- C10: `disconnect` resets the transport handle and the connected-at
timestamp, but leaves `last_activity` and `error_message` exactly as they
were before the call. -/
theorem disconnect_frame (s : ManagerState) (q c : Except String Unit) :
    ∃ s2, disconnect s q c = .ok s2
      ∧ s2.last_activity = s.last_activity
      ∧ s2.error_message = s.error_message
      ∧ s2.ftp = none
      ∧ s2.connected_at = none :=
  ⟨postDisconnect s, disconnect_eq s q c, rfl, rfl, rfl, rfl⟩

/-! ## Claim C5 — single-location upload invariant -/

/-- C5: under monotone cancellation (the flag is only ever set, never
cleared, during one `upload_to_dump` call), `success` is true iff the call
was connected, uncancelled throughout, and both transfers succeeded — in
particular `success = true` only if both files completed; and in every
outcome the per-file flags record exactly which of the two files completed
before any failure or cancellation. -/
theorem upload_to_dump_invariant (p : String) (connected c0 c1 c2 : Bool)
    (er jr : Except String Nat)
    (hm0 : c0 = true → c1 = true) (hm1 : c1 = true → c2 = true) :
    ((upload_to_dump p connected c0 c1 c2 er jr).1.success = true ↔
      (connected = true ∧ c2 = false ∧ isErr er = false ∧ isErr jr = false))
    ∧ (upload_to_dump p connected c0 c1 c2 er jr).1.elf_uploaded
        = (connected && !c0 && !(isErr er))
    ∧ (upload_to_dump p connected c0 c1 c2 er jr).1.js_uploaded
        = (connected && !c1 && !(isErr er) && !(isErr jr)) := by
  cases connected <;> cases c0 <;> cases c1 <;> cases c2 <;> cases er <;> cases jr <;>
    simp_all [upload_to_dump, uploadFinish, isErr]

/-- C5 witness: cancellation observed only at the final checkpoint yields a
failed outcome whose per-file flags still record that both files had
completed. -/
theorem upload_to_dump_invariant_witness :
    (upload_to_dump "/g" true false false true (.ok 5) (.ok 3)).1.success = false
    ∧ (upload_to_dump "/g" true false false true (.ok 5) (.ok 3)).1.elf_uploaded = true
    ∧ (upload_to_dump "/g" true false false true (.ok 5) (.ok 3)).1.js_uploaded = true := by
  have h := upload_to_dump_invariant "/g" true false false true (.ok 5) (.ok 3)
    (fun hh => hh) (fun _ => rfl)
  refine ⟨?_, h.2.1, h.2.2⟩
  have h1 := h.1
  simp only [isErr] at h1
  simp at h1
  exact h1

/-! ## Claim C4 — batch upload outcome shape -/

theorem uploadBatchGo_path (p : String) (connected c0 c1 c2 : Bool)
    (er jr : Except String Nat) :
    (upload_to_dump p connected c0 c1 c2 er jr).1.dump_path = p := by
  cases connected <;> cases c0 <;> cases c1 <;> cases c2 <;> cases er <;> cases jr <;>
    simp [upload_to_dump, uploadFinish]

theorem uploadBatchGo_shape (connected : Bool) (cb : UploadResult → Bool)
    (dumps : List DumpSpec) : ∀ cancelled : Bool,
    (uploadBatchGo connected cb dumps cancelled).1.length = dumps.length
    ∧ (uploadBatchGo connected cb dumps cancelled).1.map (fun r => r.dump_path)
        = dumps.map (fun d => d.path) := by
  induction dumps with
  | nil => intro c; exact ⟨rfl, rfl⟩
  | cons d rest ih =>
    intro c
    cases c <;> simp [uploadBatchGo, cancelledResult, uploadBatchGo_path, ih]

/-- C4: a batch upload over any list of N targets returns exactly N
outcomes, one per target and in the given order (failures are data in the
outcome list — the embedded `upload_batch` is total, it never propagates a
per-file exception); and in the concrete 3-target batch where cancellation
is requested right after the first target completes, the outcomes are
`[success, cancelled, cancelled]` in order and `STOR` transfers were
attempted only for the first target's two files. -/
theorem upload_batch_outcomes :
    (∀ (connected : Bool) (cb : UploadResult → Bool) (dumps : List DumpSpec),
        (upload_batch connected cb dumps).1.length = dumps.length
        ∧ (upload_batch connected cb dumps).1.map (fun r => r.dump_path)
            = dumps.map (fun d => d.path))
    ∧ upload_batch true (fun _ => true)
        [⟨"a", .ok 1, .ok 2⟩, ⟨"b", .ok 1, .ok 2⟩, ⟨"c", .ok 1, .ok 2⟩]
      = ([⟨"a", true, none, true, true, 3⟩, cancelledResult "b", cancelledResult "c"],
         [⟨"a", true, none, true, true, 3⟩],
         ["a/dump_runner.elf", "a/homebrew.js"]) := by
  constructor
  · intro connected cb dumps
    exact uploadBatchGo_shape connected cb dumps false
  · decide

/-! ## Claim C9 — per-location completion callback -/

/-- C9 counterexample: in a 2-target batch where the completion callback of
the first target requests cancellation, the callback fires once, not once
per location — the location skipped by cancellation gets an outcome but no
callback invocation. -/
theorem upload_batch_callback_counterexample :
    ((upload_batch true (fun _ => true)
        [⟨"a", .ok 1, .ok 2⟩, ⟨"b", .ok 1, .ok 2⟩]).2.1.length = 1)
    ∧ ¬((upload_batch true (fun _ => true)
        [⟨"a", .ok 1, .ok 2⟩, ⟨"b", .ok 1, .ok 2⟩]).2.1.length
       = ([⟨"a", .ok 1, .ok 2⟩, ⟨"b", .ok 1, .ok 2⟩] : List DumpSpec).length) := by
  constructor <;> decide

theorem uploadBatchGo_cancelled_all (connected : Bool) (cb : UploadResult → Bool)
    (dumps : List DumpSpec) :
    uploadBatchGo connected cb dumps true
      = (dumps.map (fun d => cancelledResult d.path), [], []) := by
  induction dumps with
  | nil => rfl
  | cons d rest ih => simp [uploadBatchGo, ih]

theorem uploadBatchGo_cons_false (connected : Bool) (cb : UploadResult → Bool)
    (d : DumpSpec) (rest : List DumpSpec) :
    uploadBatchGo connected cb (d :: rest) false
      = ((upload_to_dump d.path connected false false false d.elfRes d.jsRes).1
           :: (uploadBatchGo connected cb rest
                (cb (upload_to_dump d.path connected false false false
                      d.elfRes d.jsRes).1)).1,
         (upload_to_dump d.path connected false false false d.elfRes d.jsRes).1
           :: (uploadBatchGo connected cb rest
                (cb (upload_to_dump d.path connected false false false
                      d.elfRes d.jsRes).1)).2.1,
         (upload_to_dump d.path connected false false false d.elfRes d.jsRes).2
           ++ (uploadBatchGo connected cb rest
                (cb (upload_to_dump d.path connected false false false
                      d.elfRes d.jsRes).1)).2.2) := rfl

theorem uploadBatchGo_cbs_prefix (connected : Bool) (cb : UploadResult → Bool)
    (dumps : List DumpSpec) : ∀ cancelled : Bool,
    (uploadBatchGo connected cb dumps cancelled).2.1
      = (uploadBatchGo connected cb dumps cancelled).1.take
          (uploadBatchGo connected cb dumps cancelled).2.1.length := by
  induction dumps with
  | nil => intro c; rfl
  | cons d rest ih =>
    intro c
    cases c
    · rw [uploadBatchGo_cons_false]
      dsimp only
      rw [List.length_cons, List.take_succ_cons]
      conv_lhs =>
        rw [ih (cb (upload_to_dump d.path connected false false false
              d.elfRes d.jsRes).1)]
    · simp [uploadBatchGo_cancelled_all]

theorem uploadBatchGo_nocancel_cbs (connected : Bool) (dumps : List DumpSpec) :
    (uploadBatchGo connected (fun _ => false) dumps false).2.1
      = (uploadBatchGo connected (fun _ => false) dumps false).1 := by
  induction dumps with
  | nil => rfl
  | cons d rest ih => simp [uploadBatchGo, ih]

/-- C9 (amended): the completion callback fires exactly once, in order and
with that location's outcome, for each location whose upload was actually
performed — these form a prefix of the outcome list; a location skipped
because cancellation was already requested receives a cancelled outcome but
no callback.  In particular, when no cancellation is ever requested the
callback fires exactly once per location of the batch. -/
theorem upload_batch_callback_amended :
    (∀ (connected : Bool) (cb : UploadResult → Bool) (dumps : List DumpSpec),
        (upload_batch connected cb dumps).2.1
          = (upload_batch connected cb dumps).1.take
              (upload_batch connected cb dumps).2.1.length)
    ∧ (∀ (connected : Bool) (dumps : List DumpSpec),
        (upload_batch connected (fun _ => false) dumps).2.1
          = (upload_batch connected (fun _ => false) dumps).1
        ∧ (upload_batch connected (fun _ => false) dumps).2.1.length = dumps.length) := by
  constructor
  · intro connected cb dumps
    exact uploadBatchGo_cbs_prefix connected cb dumps false
  · intro connected dumps
    refine ⟨uploadBatchGo_nocancel_cbs connected dumps, ?_⟩
    show (uploadBatchGo connected (fun _ => false) dumps false).2.1.length = dumps.length
    rw [uploadBatchGo_nocancel_cbs connected dumps]
    exact (uploadBatchGo_shape connected (fun _ => false) dumps false).1

/-! ## Claim C1 — keepalive failure during listing retries -/

/-- C1 counterexample: with every NLST attempt failing transiently and every
between-retry keepalive NOOP failing, `_nlst_with_retry` (budget 2) still
performs all 3 listing attempts (and 2 keepalives) and raises the *last*
transient error — the keepalive failure does not make the first failure
propagate immediately, which would have meant exactly 1 listing attempt. -/
theorem nlst_retry_counterexample :
    nlst_with_retry (fun k => .error (.exc ("t" ++ toString k)))
        (fun _ => .error (.perm "x")) (fun _ => false) 2
      = (.error (.exc "t2"), 3, 2)
    ∧ ¬((nlst_with_retry (fun k => .error (.exc ("t" ++ toString k)))
        (fun _ => .error (.perm "x")) (fun _ => false) 2).2.1 = 1) :=
  ⟨rfl, by decide⟩

theorem nlstRetryGo_unfold (nlstRes fbRes : Nat → Except FtpErr (List String))
    (noopOk : Nat → Bool) (k fuel : Nat) :
    nlstRetryGo nlstRes fbRes noopOk k fuel =
      match nlstRes k with
      | .ok xs => (.ok xs, 1, 0)
      | .error (.perm _) =>
        (match fbRes k with
         | .ok xs => (.ok xs, 1, 0)
         | .error e => (.error e, 1, 0))
      | .error e =>
        match fuel with
        | 0 => (.error e, 1, 0)
        | fuel2 + 1 =>
          let rest := nlstRetryGo nlstRes fbRes noopOk (k + 1) fuel2
          (rest.1, rest.2.1 + 1, rest.2.2 + 1) := by
  rw [nlstRetryGo.eq_def]

theorem nlstRetryGo_noop_independent (nlstRes fbRes : Nat → Except FtpErr (List String))
    (n1 n2 : Nat → Bool) : ∀ (fuel k : Nat),
    nlstRetryGo nlstRes fbRes n1 k fuel = nlstRetryGo nlstRes fbRes n2 k fuel := by
  intro fuel
  induction fuel with
  | zero =>
    intro k
    cases hr : nlstRes k with
    | ok xs => simp [nlstRetryGo, hr]
    | error e => cases e <;> simp [nlstRetryGo, hr]
  | succ fuel ih =>
    intro k
    rw [nlstRetryGo_unfold nlstRes fbRes n1, nlstRetryGo_unfold nlstRes fbRes n2]
    cases hr : nlstRes k with
    | ok xs => rfl
    | error e =>
      cases e with
      | perm m => rfl
      | os m =>
        dsimp only
        rw [ih (k + 1)]
      | exc m =>
        dsimp only
        rw [ih (k + 1)]

theorem nlstRetryGo_transient (nlstRes fbRes : Nat → Except FtpErr (List String))
    (noopOk : Nat → Bool) (htrans : ∀ j, isTransient (nlstRes j) = true) :
    ∀ (fuel k : Nat),
      (nlstRetryGo nlstRes fbRes noopOk k fuel).2.1 = fuel + 1
      ∧ (nlstRetryGo nlstRes fbRes noopOk k fuel).2.2 = fuel
      ∧ ∀ e, nlstRes (k + fuel) = .error e →
          (nlstRetryGo nlstRes fbRes noopOk k fuel).1 = .error e := by
  intro fuel
  induction fuel with
  | zero =>
    intro k
    have ht := htrans k
    cases hr : nlstRes k with
    | ok xs => rw [hr] at ht; simp [isTransient] at ht
    | error e =>
      cases e with
      | perm m => rw [hr] at ht; simp [isTransient] at ht
      | os m =>
        refine ⟨by simp [nlstRetryGo, hr], by simp [nlstRetryGo, hr], ?_⟩
        intro e2 he2
        rw [Nat.add_zero, hr] at he2
        simp [nlstRetryGo, hr]
        exact (Except.error.inj he2)
      | exc m =>
        refine ⟨by simp [nlstRetryGo, hr], by simp [nlstRetryGo, hr], ?_⟩
        intro e2 he2
        rw [Nat.add_zero, hr] at he2
        simp [nlstRetryGo, hr]
        exact (Except.error.inj he2)
  | succ fuel ih =>
    intro k
    have ht := htrans k
    have hidx : k + (fuel + 1) = (k + 1) + fuel := by omega
    cases hr : nlstRes k with
    | ok xs => rw [hr] at ht; simp [isTransient] at ht
    | error e =>
      cases e with
      | perm m => rw [hr] at ht; simp [isTransient] at ht
      | os m =>
        refine ⟨?_, ?_, ?_⟩
        · rw [nlstRetryGo_unfold, hr]
          dsimp only
          rw [(ih (k + 1)).1]
        · rw [nlstRetryGo_unfold, hr]
          dsimp only
          rw [(ih (k + 1)).2.1]
        · intro e2 he2
          rw [hidx] at he2
          rw [nlstRetryGo_unfold, hr]
          dsimp only
          exact (ih (k + 1)).2.2 e2 he2
      | exc m =>
        refine ⟨?_, ?_, ?_⟩
        · rw [nlstRetryGo_unfold, hr]
          dsimp only
          rw [(ih (k + 1)).1]
        · rw [nlstRetryGo_unfold, hr]
          dsimp only
          rw [(ih (k + 1)).2.1]
        · intro e2 he2
          rw [hidx] at he2
          rw [nlstRetryGo_unfold, hr]
          dsimp only
          exact (ih (k + 1)).2.2 e2 he2

/-- C1 (amended): the keepalive issued between listing retries is
best-effort — its failure is swallowed, the retry loop's outcome is
entirely independent of the keepalive results, and when every attempt
fails transiently all `retries + 1` listing attempts are performed (with
`retries` keepalives) before the *last* transient failure propagates. -/
theorem nlst_retry_keepalive_best_effort
    (nlstRes fbRes : Nat → Except FtpErr (List String)) (n1 n2 : Nat → Bool)
    (retries : Nat) (e : FtpErr)
    (htrans : ∀ j, isTransient (nlstRes j) = true)
    (hlast : nlstRes retries = .error e) :
    nlst_with_retry nlstRes fbRes n1 retries = nlst_with_retry nlstRes fbRes n2 retries
    ∧ (nlst_with_retry nlstRes fbRes n1 retries).2.1 = retries + 1
    ∧ (nlst_with_retry nlstRes fbRes n1 retries).2.2 = retries
    ∧ (nlst_with_retry nlstRes fbRes n1 retries).1 = .error e := by
  have h := nlstRetryGo_transient nlstRes fbRes n1 htrans retries 0
  exact ⟨nlstRetryGo_noop_independent nlstRes fbRes n1 n2 retries 0,
         h.1, h.2.1, h.2.2 e (by simpa using hlast)⟩

/-- C1 witness: concrete all-transient run with budget 1, under both an
always-succeeding and an always-failing keepalive. -/
theorem nlst_retry_keepalive_best_effort_witness :
    nlst_with_retry (fun _ => .error (.os "reset")) (fun _ => .ok []) (fun _ => true) 1
      = nlst_with_retry (fun _ => .error (.os "reset")) (fun _ => .ok []) (fun _ => false) 1
    ∧ (nlst_with_retry (fun _ => .error (.os "reset"))
        (fun _ => .ok []) (fun _ => true) 1).2.1 = 2
    ∧ (nlst_with_retry (fun _ => .error (.os "reset"))
        (fun _ => .ok []) (fun _ => true) 1).2.2 = 1
    ∧ (nlst_with_retry (fun _ => .error (.os "reset"))
        (fun _ => .ok []) (fun _ => true) 1).1 = .error (.os "reset") :=
  nlst_retry_keepalive_best_effort (fun _ => .error (.os "reset")) (fun _ => .ok [])
    (fun _ => true) (fun _ => false) 1 (.os "reset") (fun _ => rfl) rfl

/-! ## Claim C2 — scan fails fast when the initial keepalive fails -/

/-- C2: whatever behaviour the session would exhibit on the candidate
roots, a scan on a connected session whose initial keepalive NOOP fails
raises the connection-lost failure (the session is not actually usable)
with a command trace consisting of the single NOOP — no candidate root is
probed or listed. -/
theorem scan_initial_keepalive_gate (renv : String → RootEnv)
    (eenv : String → EntryEnv) :
    scan true false renv eenv
      = (.error (.connLost "[WinError 10061] Connection lost - FTP server not responding"),
         [FtpOp.noop]) := rfl

/-! ## Claim C3 — LIST fallback cwd save/restore discipline -/

/-- C3: `_list_with_fallback` always saves the current directory (`pwd`)
before changing into the target; when the verbose listing fails the
returned failure is the original one, unchanged and independent of the
restore's own outcome, the restore `cwd` is still issued after the failure,
and when that best-effort restore succeeds the session is back in the
original directory; on the success path the original directory is likewise
restored. -/
theorem list_fallback_cwd_discipline (env : LfEnv) (s : FtpState) (path : String) :
    (env.pwdFail = none →
      ∃ rest, (list_with_fallback env s path).2.2
        = FtpOp.pwd :: FtpOp.cwd path :: rest)
    ∧ (∀ m, env.pwdFail = none → env.cwdInFail = none → env.dirRes = .error m →
        (list_with_fallback env s path).1 = .error m
        ∧ (list_with_fallback env s path).2.2
            = [FtpOp.pwd, FtpOp.cwd path, FtpOp.dirList path, FtpOp.cwd s.cwd]
        ∧ (env.cwdBackFail 0 = none → (list_with_fallback env s path).2.1.cwd = s.cwd))
    ∧ (∀ lines, env.pwdFail = none → env.cwdInFail = none → env.dirRes = .ok lines →
        env.cwdBackFail 0 = none →
        (list_with_fallback env s path).2.1.cwd = s.cwd
        ∧ ∃ xs, (list_with_fallback env s path).1 = .ok xs) := by
  obtain ⟨pf, cf, dr, bf⟩ := env
  refine ⟨?_, ?_, ?_⟩
  · intro hp
    subst hp
    cases cf with
    | some m => exact ⟨[FtpOp.cwd s.cwd], rfl⟩
    | none =>
      cases dr with
      | error m => exact ⟨[FtpOp.dirList path, FtpOp.cwd s.cwd], rfl⟩
      | ok lines =>
        cases hb : bf 0 with
        | some m =>
          exact ⟨[FtpOp.dirList path, FtpOp.cwd s.cwd, FtpOp.cwd s.cwd],
                 by simp [list_with_fallback, hb]⟩
        | none =>
          exact ⟨[FtpOp.dirList path, FtpOp.cwd s.cwd],
                 by simp [list_with_fallback, hb]⟩
  · intro m hp hc hd
    subst hp
    subst hc
    subst hd
    refine ⟨rfl, rfl, ?_⟩
    intro hb
    have hb2 : bf 0 = none := hb
    show (match bf 0 with
          | none => ({ cwd := s.cwd } : FtpState)
          | some _ => ({ cwd := path } : FtpState)).cwd = s.cwd
    rw [hb2]
  · intro lines hp hc hd hb
    subst hp
    subst hc
    subst hd
    have hb2 : bf 0 = none := hb
    constructor
    · show (match bf 0 with
            | some m =>
              ((.error m : Except String (List String)),
               (match bf 1 with
                | none => ({ cwd := s.cwd } : FtpState)
                | some _ => ({ cwd := path } : FtpState)),
               [FtpOp.pwd, FtpOp.cwd path, FtpOp.dirList path, FtpOp.cwd s.cwd,
                FtpOp.cwd s.cwd])
            | none =>
              (.ok ((parse_list_output (String.intercalate "\n" lines)).map
                      (fun dirname =>
                        if strStartsWith dirname "/" then dirname
                        else rstripSlash path ++ "/" ++ dirname)),
               ({ cwd := s.cwd } : FtpState),
               [FtpOp.pwd, FtpOp.cwd path, FtpOp.dirList path,
                FtpOp.cwd s.cwd])).2.1.cwd = s.cwd
      rw [hb2]
    · refine ⟨(parse_list_output (String.intercalate "\n" lines)).map
          (fun dirname =>
            if strStartsWith dirname "/" then dirname
            else rstripSlash path ++ "/" ++ dirname), ?_⟩
      show (match bf 0 with
            | some m =>
              ((.error m : Except String (List String)),
               (match bf 1 with
                | none => ({ cwd := s.cwd } : FtpState)
                | some _ => ({ cwd := path } : FtpState)),
               [FtpOp.pwd, FtpOp.cwd path, FtpOp.dirList path, FtpOp.cwd s.cwd,
                FtpOp.cwd s.cwd])
            | none =>
              (.ok ((parse_list_output (String.intercalate "\n" lines)).map
                      (fun dirname =>
                        if strStartsWith dirname "/" then dirname
                        else rstripSlash path ++ "/" ++ dirname)),
               ({ cwd := s.cwd } : FtpState),
               [FtpOp.pwd, FtpOp.cwd path, FtpOp.dirList path,
                FtpOp.cwd s.cwd])).1 = _
      rw [hb2]

/-- C3 witness: a concrete failed verbose listing re-raises the original
failure after a successful best-effort restore to the saved directory. -/
theorem list_fallback_cwd_discipline_witness :
    ((list_with_fallback ⟨none, none, .error "boom", fun _ => none⟩
        ⟨"/"⟩ "/data/homebrew").1 = .error "boom")
    ∧ ((list_with_fallback ⟨none, none, .error "boom", fun _ => none⟩
        ⟨"/"⟩ "/data/homebrew").2.2
       = [FtpOp.pwd, FtpOp.cwd "/data/homebrew", FtpOp.dirList "/data/homebrew",
          FtpOp.cwd "/"])
    ∧ ((list_with_fallback ⟨none, none, .error "boom", fun _ => none⟩
        ⟨"/"⟩ "/data/homebrew").2.1.cwd = "/") := by
  have h := (list_fallback_cwd_discipline ⟨none, none, .error "boom", fun _ => none⟩
    ⟨"/"⟩ "/data/homebrew").2.1 "boom" rfl rfl rfl
  exact ⟨h.1, h.2.1, h.2.2 rfl⟩

end PS5DR
